import Mathlib

/-!
Verification development for the Medium article scraper
(`src/medium_scraper.py`).  The extraction core is embedded shallowly:

* JSON values parsed by Python's `json.loads` become the inductive `JValue`;
  a parsed Apollo state object becomes an association list
  `List (String × JValue)` (keys are unique in JSON objects, so
  first-match lookup models `dict.get`).
* The boundary to Python's `re`/`json` machinery (locating the
  `window.__APOLLO_STATE__` assignment, collecting `ld+json` script blocks,
  collecting the per-pattern `findall` results for the article-tag search)
  is a `Document` record carrying the already-located components; everything
  the Python functions do after that boundary is translated line by line.
* `clean_html_content`'s regex substitutions are implemented as explicit
  left-to-right scanners with the exact greedy/lazy semantics of each
  pattern used by the source.
* Python exceptions inside `extract_from_apollo_state` (which its
  `try`/`except` turns into an empty result) are modelled with
  `Except Unit`.
-/

inductive JValue where
  | null
  | bool (b : Bool)
  | num (n : Int)
  | str (s : String)
  | arr (xs : List JValue)
  | obj (fields : List (String × JValue))

/-- Python's `str.strip()` / the whitespace class `\s`, restricted to the
ASCII whitespace characters (space, tab, newline, carriage return,
vertical tab, form feed); the Unicode extensions are not exercised by
this development. -/
def isPySpace (c : Char) : Bool :=
  c == ' ' || c == '\t' || c == '\n' || c == '\r' ||
  c == Char.ofNat 11 || c == Char.ofNat 12

def stripChars (l : List Char) : List Char :=
  ((l.dropWhile isPySpace).reverse.dropWhile isPySpace).reverse

/-- Python `str.strip()`. -/
def pyStrip (s : String) : String :=
  String.mk (stripChars s.data)

/-- `apollo_data.get(key, {})` where `key` is the value found under
`"__ref"`: a string key is looked up in the graph (absent keys give the
default `{}`), other hashable values (numbers, booleans, `None`) are
never present as keys so also give `{}`, and unhashable values (lists,
dicts) raise `TypeError`, which the enclosing `try` turns into an empty
overall result. -/
def refGet (g : List (String × JValue)) (v : JValue) : Except Unit JValue :=
  match v with
  | .str s => .ok ((g.lookup s).getD (.obj []))
  | .arr _ => .error ()
  | .obj _ => .error ()
  | _ => .ok (.obj [])

/-- Python `value.get(k, d)`: succeeds on a dict, raises
`AttributeError` on anything else. -/
def pyDictGet (v : JValue) (k : String) (d : JValue) : Except Unit JValue :=
  match v with
  | .obj fs => .ok ((fs.lookup k).getD d)
  | _ => .error ()

/-- `isinstance(value, dict) and value.get('__typename') == 'Post'`. -/
def isPost (fs : List (String × JValue)) : Bool :=
  match fs.lookup "__typename" with
  | some (.str t) => t == "Post"
  | _ => false

/-- The per-paragraph marker dispatch in `extract_from_apollo_state`
(lines 114-123): the `type` discriminator is compared against the string
literals `H3`, `H4`, `BQ`, `PRE`; any other value (including non-string
discriminators) falls through to the bare text. -/
def renderPara (t : JValue) (text : String) : String :=
  match t with
  | .str s =>
    if s == "H3" then "\n### " ++ text ++ "\n"
    else if s == "H4" then "\n#### " ++ text ++ "\n"
    else if s == "BQ" then "\n> " ++ text ++ "\n"
    else if s == "PRE" then "\n```\n" ++ text ++ "\n```\n"
    else text
  | _ => text

/-- The `for para_ref in paragraphs` loop (lines 107-123): paragraph
entries that are not a dict carrying `"__ref"` are skipped silently, a
resolved paragraph contributes its rendered text unless the stripped
text is empty, and a non-string `text` value makes `.strip()` raise. -/
def processParagraphs (g : List (String × JValue)) :
    List JValue → Except Unit (List String)
  | [] => .ok []
  | p :: rest =>
    match p with
    | .obj prfs =>
      match prfs.lookup "__ref" with
      | some rv => do
        let paraObj ← refGet g rv
        let textv ← pyDictGet paraObj "text" (.str "")
        match textv with
        | .str t0 =>
          let text := pyStrip t0
          let typev ← pyDictGet paraObj "type" (.str "P")
          let parts ← processParagraphs g rest
          if text == "" then .ok parts
          else .ok (renderPara typev text :: parts)
        | _ => .error ()
      | none => processParagraphs g rest
    | _ => processParagraphs g rest

/-- One iteration of the `for key, value in apollo_data.items()` loop for
a `Post` entry (lines 98-125): `none` means the loop falls through to the
next entry, `some r` means the function exits (normally or with an
exception).  Iterating a non-list `paragraphs` value either yields no
dict entries (strings and dicts, giving the empty join) or raises
(`None`, booleans, numbers). -/
def processEntry (g : List (String × JValue)) (fs : List (String × JValue)) :
    Option (Except Unit String) :=
  match (fs.lookup "content").getD (.obj []) with
  | .obj cfs =>
    match cfs.lookup "__ref" with
    | some crv =>
      match refGet g crv with
      | .error e => some (.error e)
      | .ok contentObj =>
        match pyDictGet contentObj "bodyModel" (.obj []) with
        | .error e => some (.error e)
        | .ok bodyRef =>
          match bodyRef with
          | .obj bfs =>
            match bfs.lookup "__ref" with
            | some brv =>
              match refGet g brv with
              | .error e => some (.error e)
              | .ok bodyObj =>
                match pyDictGet bodyObj "paragraphs" (.arr []) with
                | .error e => some (.error e)
                | .ok parasv =>
                  match parasv with
                  | .arr paras =>
                    match processParagraphs g paras with
                    | .error e => some (.error e)
                    | .ok parts => some (.ok (String.intercalate "\n\n" parts))
                  | .str _ => some (.ok "")
                  | .obj _ => some (.ok "")
                  | _ => some (.error ())
            | none => none
          | _ => none
    | none => none
  | _ => none

/-- The scan of the graph's top-level entries (line 96): reaching the end
of the loop is the function's final `return ""`. -/
def apolloLoop (g : List (String × JValue)) :
    List (String × JValue) → Except Unit String
  | [] => .ok ""
  | (_, v) :: rest =>
    match v with
    | .obj fs =>
      if isPost fs then
        match processEntry g fs with
        | some r => r
        | none => apolloLoop g rest
      else apolloLoop g rest
    | _ => apolloLoop g rest

/-- `extract_from_apollo_state` (lines 84-130).  The input is the parsed
`window.__APOLLO_STATE__` object when the locating regex matched and
`json.loads` succeeded, `none` otherwise (both failure modes return the
empty string, as does any exception raised inside the body). -/
def extract_from_apollo_state (apollo : Option (List (String × JValue))) : String :=
  match apollo with
  | none => ""
  | some g =>
    match apolloLoop g g with
    | .ok s => s
    | .error _ => ""

/-- The inner `for item in data` scan of a JSON-LD list (lines 146-148). -/
def firstBodyInList : List JValue → Option JValue
  | [] => none
  | (.obj fs) :: rest =>
    match fs.lookup "articleBody" with
    | some v => some v
    | none => firstBodyInList rest
  | _ :: rest => firstBodyInList rest

/-- The `for match in jsonld_matches` loop (lines 138-151): blocks whose
`json.loads` failed (`none`) are skipped, dict blocks yield their
`articleBody` field if present, list blocks yield the first member dict
carrying the field. -/
def findArticleBody : List (Option JValue) → Option JValue
  | [] => none
  | b :: rest =>
    match b with
    | some (.obj fs) =>
      match fs.lookup "articleBody" with
      | some v => some v
      | none => findArticleBody rest
    | some (.arr items) =>
      match firstBodyInList items with
      | some v => some v
      | none => findArticleBody rest
    | _ => findArticleBody rest

/-- `extract_from_jsonld` (lines 132-156), applied to the parse results
of the `ld+json` script blocks.  An `articleBody` holding a non-string
JSON value does not occur in JSON-LD and is not modelled (mapped to the
empty result here); the source would return the raw value. -/
def extract_from_jsonld (blocks : List (Option JValue)) : String :=
  match findArticleBody blocks with
  | some (.str s) => s
  | _ => ""

/-! ### The Markup Normalizer: `clean_html_content`

Each `re.sub` call of the source becomes one left-to-right scanning pass.
A matcher tries the pattern at the head of the remaining characters and,
on success, returns the replacement together with the characters after
the matched span; the driver `substFuel` then continues after the
replacement, which is exactly `re.sub`'s leftmost, non-overlapping
scan (every pattern used by the source matches at least one character,
so fuel equal to the input length never runs out). -/

def substFuel (try1 : List Char → Option (List Char × List Char)) :
    Nat → List Char → List Char
  | 0, l => l
  | _ + 1, [] => []
  | n + 1, c :: cs =>
    match try1 (c :: cs) with
    | some (rep, rest) => rep ++ substFuel try1 n rest
    | none => c :: substFuel try1 n cs

def runSub (try1 : List Char → Option (List Char × List Char))
    (l : List Char) : List Char :=
  substFuel try1 l.length l

/-- `re.IGNORECASE` ASCII case folding. -/
def lowerAscii (c : Char) : Char :=
  if 'A' ≤ c ∧ c ≤ 'Z' then Char.ofNat (c.toNat + 32) else c

/-- Drop a case-insensitive literal (given lowercased) from the head. -/
def dropCI : List Char → List Char → Option (List Char)
  | [], l => some l
  | _ :: _, [] => none
  | p :: ps, c :: cs => if lowerAscii c = p then dropCI ps cs else none

/-- Drop a case-sensitive literal from the head. -/
def dropLit : List Char → List Char → Option (List Char)
  | [], l => some l
  | _ :: _, [] => none
  | p :: ps, c :: cs => if c = p then dropLit ps cs else none

/-- Consume up to and including the first occurrence of `t`
(the compiled form of `[^>]*>` for `t = '>'`). -/
def dropThroughChar (t : Char) : List Char → Option (List Char)
  | [] => none
  | c :: cs => if c = t then some cs else dropThroughChar t cs

/-- Consume up to and including the first occurrence of the
case-insensitive literal `p` (the compiled form of a lazy `.*?`
with `re.DOTALL` followed by the literal). -/
def dropThroughSubCI (p : List Char) : List Char → Option (List Char)
  | [] => if p.isEmpty then some [] else none
  | c :: cs =>
    match dropCI p (c :: cs) with
    | some r => some r
    | none => dropThroughSubCI p cs

/-- `re.sub(r'<script[^>]*>.*?</script>', '', html, flags=re.DOTALL |
re.IGNORECASE)`, matcher part. -/
def tryScript (l : List Char) : Option (List Char × List Char) :=
  match l with
  | [] => none
  | c :: rest =>
    if c = '<' then
      match dropCI "script".data rest with
      | some r1 =>
        match dropThroughChar '>' r1 with
        | some r2 =>
          match dropThroughSubCI "</script>".data r2 with
          | some r3 => some ([], r3)
          | none => none
        | none => none
      | none => none
    else none

/-- `re.sub(r'<style[^>]*>.*?</style>', '', html, flags=re.DOTALL |
re.IGNORECASE)`, matcher part. -/
def tryStyle (l : List Char) : Option (List Char × List Char) :=
  match l with
  | [] => none
  | c :: rest =>
    if c = '<' then
      match dropCI "style".data rest with
      | some r1 =>
        match dropThroughChar '>' r1 with
        | some r2 =>
          match dropThroughSubCI "</style>".data r2 with
          | some r3 => some ([], r3)
          | none => none
        | none => none
      | none => none
    else none

/-- `</h[1-6]>` (any closing level, as in the source's pattern). -/
def isH16Close : List Char → Option (List Char)
  | '<' :: '/' :: 'h' :: d :: '>' :: rest =>
    if '1' ≤ d ∧ d ≤ '6' then some rest else none
  | _ => none

/-- The lazy group `(.*?)</h[1-6]>` without `re.DOTALL`: at each
position first try the closing tag, otherwise consume one character,
which must not be a newline. -/
def scanHClose (acc : List Char) : List Char → Option (List Char × List Char)
  | [] => none
  | c :: cs =>
    match isH16Close (c :: cs) with
    | some rest => some (acc.reverse, rest)
    | none => if c = '\n' then none else scanHClose (c :: acc) cs

/-- `re.sub(r'<h([1-6])[^>]*>(.*?)</h[1-6]>', lambda m: '\n' + '#' *
int(m.group(1)) + ' ' + m.group(2) + '\n', html)`, matcher part. -/
def tryH (l : List Char) : Option (List Char × List Char) :=
  match l with
  | [] => none
  | c :: rest =>
    if c = '<' then
      match rest with
      | 'h' :: d :: r1 =>
        if '1' ≤ d ∧ d ≤ '6' then
          match dropThroughChar '>' r1 with
          | some r2 =>
            match scanHClose [] r2 with
            | some (g2, r3) =>
              some ('\n' :: List.replicate (d.toNat - '0'.toNat) '#' ++
                    ' ' :: g2 ++ ['\n'], r3)
            | none => none
          | none => none
        else none
      | _ => none
    else none

/-- `re.sub(r'<p[^>]*>', '\n', html)`, matcher part. -/
def tryPOpen (l : List Char) : Option (List Char × List Char) :=
  match l with
  | [] => none
  | c :: rest =>
    if c = '<' then
      match rest with
      | 'p' :: r1 =>
        match dropThroughChar '>' r1 with
        | some r2 => some (['\n'], r2)
        | none => none
      | _ => none
    else none

/-- `re.sub(r'</p>', '\n', html)`, matcher part. -/
def tryPClose (l : List Char) : Option (List Char × List Char) :=
  match l with
  | [] => none
  | c :: rest =>
    if c = '<' then
      match rest with
      | '/' :: 'p' :: '>' :: r1 => some (['\n'], r1)
      | _ => none
    else none

/-- `re.sub(r'<br[^>]*/?>', '\n', html)`, matcher part (`[^>]*` cannot
contain `>` and is greedy, so the optional `/` is absorbed by it and the
pattern reduces to `<br` followed by everything up to the first `>`). -/
def tryBr (l : List Char) : Option (List Char × List Char) :=
  match l with
  | [] => none
  | c :: rest =>
    if c = '<' then
      match rest with
      | 'b' :: 'r' :: r1 =>
        match dropThroughChar '>' r1 with
        | some r2 => some (['\n'], r2)
        | none => none
      | _ => none
    else none

/-- `re.sub(r'<[^>]+>', '', html)`, matcher part. -/
def tryAnyTag (l : List Char) : Option (List Char × List Char) :=
  match l with
  | [] => none
  | c :: rest =>
    if c = '<' then
      match rest with
      | [] => none
      | c2 :: r1 =>
        if c2 = '>' then none
        else
          match dropThroughChar '>' (c2 :: r1) with
          | some r2 => some ([], r2)
          | none => none
    else none

/-- `html.unescape`, modelled for the semicolon-terminated named
entities that occur in practice; unrecognized `&` sequences are left in
place, as in the source library. -/
def matchEntity (rest : List Char) : Option (List Char × List Char) :=
  match dropLit "amp;".data rest with
  | some r => some (['&'], r)
  | none =>
  match dropLit "lt;".data rest with
  | some r => some (['<'], r)
  | none =>
  match dropLit "gt;".data rest with
  | some r => some (['>'], r)
  | none =>
  match dropLit "quot;".data rest with
  | some r => some (['"'], r)
  | none =>
  match dropLit "apos;".data rest with
  | some r => some ([Char.ofNat 39], r)
  | none =>
  match dropLit "nbsp;".data rest with
  | some r => some ([Char.ofNat 160], r)
  | none => none

def tryEntity (l : List Char) : Option (List Char × List Char) :=
  match l with
  | [] => none
  | c :: rest =>
    if c = '&' then matchEntity rest else none

def countNl (l : List Char) : Nat := l.count '\n'

/-- Prefix of `l` up to and including its last newline (empty when `l`
has none). -/
def upToLastNl (l : List Char) : List Char :=
  (l.reverse.dropWhile (fun c => !(c == '\n'))).reverse

/-- `re.sub(r'\n\s*\n\s*\n', '\n\n', html)`, matcher part.  A match
starts at a newline and lies inside the maximal whitespace run starting
there; greedy backtracking makes the match extend exactly through the
run's last newline, and a match exists iff the run holds at least three
newlines. -/
def tryNlCollapse (l : List Char) : Option (List Char × List Char) :=
  match l with
  | [] => none
  | c :: rest =>
    if c = '\n' then
      let ws := rest.takeWhile isPySpace
      if 2 ≤ countNl ws then
        some (['\n', '\n'], rest.drop (upToLastNl ws).length)
      else none
    else none

/-- `re.sub(r' +', ' ', html)`, matcher part. -/
def trySpCollapse (l : List Char) : Option (List Char × List Char) :=
  match l with
  | [] => none
  | c :: rest =>
    if c = ' ' then some ([' '], rest.dropWhile (fun c2 => c2 == ' '))
    else none

/-- `clean_html_content` (lines 179-203): the source's eleven steps in
order — script removal, style removal, heading conversion, paragraph
open/close and break conversion, tag stripping, entity decoding,
newline-run and space-run collapsing, final strip. -/
def clean_html_content (s : String) : String :=
  let l1 := runSub tryScript s.data
  let l2 := runSub tryStyle l1
  let l3 := runSub tryH l2
  let l4 := runSub tryPOpen l3
  let l5 := runSub tryPClose l4
  let l6 := runSub tryBr l5
  let l7 := runSub tryAnyTag l6
  let l8 := runSub tryEntity l7
  let l9 := runSub tryNlCollapse l8
  let l10 := runSub trySpCollapse l9
  String.mk (stripChars l10)

/-- The inner loop of `extract_from_article_tags` (lines 169-172): clean
each regex match in document order, return the first cleaned result
longer than 200 characters. -/
def firstGoodMatch : List String → Option String
  | [] => none
  | m :: ms =>
    let cleaned := clean_html_content m
    if 200 < cleaned.length then some cleaned else firstGoodMatch ms

/-- `extract_from_article_tags` (lines 158-177), applied to the
`re.findall` results of the three region patterns in their priority
order. -/
def extract_from_article_tags : List (List String) → String
  | [] => ""
  | ms :: rest =>
    match firstGoodMatch ms with
    | some c => c
    | none => extract_from_article_tags rest

/-- A fetched document, at the boundary where the three extractors hand
the raw text to Python's `re`/`json` machinery: the parsed
`window.__APOLLO_STATE__` object (when present and well formed), the
parse results of the `ld+json` script blocks in document order, and the
`findall` match groups of the three article-tag patterns in pattern
priority order. -/
structure Document where
  apolloState : Option (List (String × JValue))
  jsonldBlocks : List (Option JValue)
  tagMatches : List (List String)

/-- `extract_article_content` (lines 47-82), after a successful fetch:
Apollo state first (threshold 500), JSON-LD second (threshold 500),
article tags third (threshold 200, and its result is returned even when
it fails that threshold). -/
def extract_article_content (d : Document) : String :=
  let c1 := extract_from_apollo_state d.apolloState
  if c1 ≠ "" ∧ 500 < c1.length then c1
  else
    let c2 := extract_from_jsonld d.jsonldBlocks
    if c2 ≠ "" ∧ 500 < c2.length then c2
    else
      let c3 := extract_from_article_tags d.tagMatches
      if c3 ≠ "" ∧ 200 < c3.length then c3
      else c3

/-- The per-article record fields computed in `scrape_from_existing_data`
(lines 249-251); the metadata fields copied verbatim from the source
descriptor are orthogonal to every claim and are not modelled. -/
structure ArticleRecord where
  content : String
  content_length : Nat
  extraction_successful : Bool

def mkArticleRecord (content : String) : ArticleRecord :=
  { content := content
    content_length := content.length
    extraction_successful := decide (200 < content.length) }

/-- The orchestration loop of `scrape_from_existing_data` (lines
227-254), restricted to the fields the claims are about: one record per
document, with content produced by the extraction coordinator. -/
def scrape_from_existing_data (docs : List Document) : List ArticleRecord :=
  docs.map (fun d => mkArticleRecord (extract_article_content d))

/-! ### Shape predicates and concrete graphs used by the theorems -/

/-- A paragraph entry of the `paragraphs` list resolves: it is a dict
carrying `__ref`, the referenced node exists, its `text` field is a
string with non-empty stripped text `yt.2`, and its effective `type`
discriminator (default `P`) is `yt.1`. -/
def ParaResolves (g : List (String × JValue)) (p : JValue)
    (yt : JValue × String) : Prop :=
  ∃ prfs k nfs t0,
    p = JValue.obj prfs ∧
    prfs.lookup "__ref" = some (.str k) ∧
    g.lookup k = some (.obj nfs) ∧
    nfs.lookup "text" = some (.str t0) ∧
    pyStrip t0 = yt.2 ∧
    ¬ yt.2 = "" ∧
    (nfs.lookup "type").getD (.str "P") = yt.1

/-- A top-level entry is a `Post` whose fixed reference chain resolves
through both dereferenced hops: `content` is a dict whose `__ref` is a
string key bound to a dict node, that node's `bodyModel` is a dict whose
`__ref` is a string key bound in the graph. -/
def entryChainResolves (g : List (String × JValue)) (v : JValue) : Bool :=
  match v with
  | .obj fs =>
    isPost fs &&
    (match (fs.lookup "content").getD (.obj []) with
     | .obj cfs =>
       match cfs.lookup "__ref" with
       | some (.str ck) =>
         match g.lookup ck with
         | some (.obj cnfs) =>
           match (cnfs.lookup "bodyModel").getD (.obj []) with
           | .obj bfs =>
             match bfs.lookup "__ref" with
             | some (.str bk) => (g.lookup bk).isSome
             | _ => false
           | _ => false
         | _ => false
       | _ => false
     | _ => false)
  | _ => false

/-- No whitespace run of the text contains three or more newlines: at
every suffix the newline-collapsing pattern fails to match. -/
def noTripleNl : List Char → Bool
  | [] => true
  | c :: cs => (tryNlCollapse (c :: cs)).isNone && noTripleNl cs

/-- No two adjacent spaces. -/
def noDoubleSpace : List Char → Bool
  | [] => true
  | [_] => true
  | a :: b :: rest => !(a == ' ' && b == ' ') && noDoubleSpace (b :: rest)

/-- `{"__ref": k}`. -/
def robj (k : String) : JValue := .obj [("__ref", .str k)]

def c2PostFields : List (String × JValue) :=
  [("__typename", .str "Post"), ("content", robj "c1")]

def c2GraphRest : List (String × JValue) :=
  [("c1", .obj [("bodyModel", robj "b1")]),
   ("b1", .obj [("paragraphs",
      .arr [robj "q1", robj "q2", robj "q3", robj "q4", robj "q5"])]),
   ("q1", .obj [("text", .str "Intro"), ("type", .str "H3")]),
   ("q2", .obj [("text", .str "Sub"), ("type", .str "H4")]),
   ("q3", .obj [("text", .str "Quote"), ("type", .str "BQ")]),
   ("q4", .obj [("text", .str "code()"), ("type", .str "PRE")]),
   ("q5", .obj [("text", .str "Plain text.")])]

/-- A graph whose single post resolves to five paragraphs exercising
every discriminator. -/
def c2Graph : List (String × JValue) :=
  ("post", JValue.obj c2PostFields) :: c2GraphRest

/-- A graph whose post chain resolves but whose second paragraph
reference points at a key that does not exist. -/
def c3Graph : List (String × JValue) :=
  [("post", .obj [("__typename", .str "Post"), ("content", robj "c1")]),
   ("c1", .obj [("bodyModel", robj "b1")]),
   ("b1", .obj [("paragraphs", .arr [robj "qGood", robj "qMissing"])]),
   ("qGood", .obj [("text", .str "Good paragraph text."), ("type", .str "P")])]

/-- A graph whose single post has its content reference pointing at a
key that does not exist. -/
def brokenHopGraph : List (String × JValue) :=
  [("post", .obj [("__typename", .str "Post"), ("content", robj "nowhere")])]

def c10PostBrokenFields : List (String × JValue) :=
  [("__typename", .str "Post"), ("content", .obj [])]

def c10PostGoodFields : List (String × JValue) :=
  [("__typename", .str "Post"), ("content", robj "c2")]

/-- Two post entries: the first has no `__ref` under `content`, the
second resolves fully. -/
def c10Graph : List (String × JValue) :=
  [("postBroken", .obj c10PostBrokenFields),
   ("postGood", .obj c10PostGoodFields),
   ("c2", .obj [("bodyModel", robj "b2")]),
   ("b2", .obj [("paragraphs", .arr [robj "p2"])]),
   ("p2", .obj [("text", .str "From the second post."), ("type", .str "P")])]

/-- A graph with reference cycles: the body node's paragraph list points
back at the body node itself and at the post node. -/
def cycGraph : List (String × JValue) :=
  [("post", .obj [("__typename", .str "Post"), ("content", robj "c")]),
   ("c", .obj [("bodyModel", robj "b")]),
   ("b", .obj [("paragraphs", .arr [robj "b", robj "post", robj "q"])]),
   ("q", .obj [("text", .str "Cycle-safe."), ("type", .str "P")])]

/-- A graph whose post's content reference points back at the post
itself (a one-step reference cycle). -/
def cycGraph2 : List (String × JValue) :=
  [("post", .obj [("__typename", .str "Post"), ("content", robj "post")])]

def a600 : String := String.mk (List.replicate 600 'a')

def b800 : String := String.mk (List.replicate 800 'b')

/-- A graph whose post resolves to a single 600-character paragraph. -/
def g600 : List (String × JValue) :=
  [("post", .obj [("__typename", .str "Post"), ("content", robj "c")]),
   ("c", .obj [("bodyModel", robj "b")]),
   ("b", .obj [("paragraphs", .arr [robj "p"])]),
   ("p", .obj [("text", .str a600)])]

/-- The spec's priority scenario: the embedded state yields 600
characters while a structured-data block yields 800. -/
def exampleDoc : Document :=
  ⟨some g600, [some (.obj [("articleBody", .str b800)])], []⟩

def m200 : String := String.mk (List.replicate 200 'a')

def m201 : String := String.mk (List.replicate 201 'a')

def emptyDoc : Document := ⟨none, [], []⟩

/-! ### Helper lemmas -/

theorem substFuel_of_none (try1 : List Char → Option (List Char × List Char)) :
    ∀ (n : Nat) (l : List Char),
      (∀ l2, l2 <:+ l → try1 l2 = none) → substFuel try1 n l = l := by
  intro n
  induction n with
  | zero => intro l _; rfl
  | succ m ih =>
    intro l h
    cases l with
    | nil => rfl
    | cons c cs =>
      have hc : try1 (c :: cs) = none := h _ (List.suffix_refl _)
      have ht : ∀ l2, l2 <:+ cs → try1 l2 = none := fun l2 h2 =>
        h l2 (h2.trans (List.suffix_cons c cs))
      simp [substFuel, hc, ih cs ht]

theorem headTrigNone (try1 : List Char → Option (List Char × List Char)) (t : Char)
    (hnil : try1 [] = none)
    (hhead : ∀ c cs, ¬ c = t → try1 (c :: cs) = none)
    (l : List Char) (hl : ∀ c ∈ l, ¬ c = t) :
    ∀ l2, l2 <:+ l → try1 l2 = none := by
  intro l2 h2
  cases l2 with
  | nil => exact hnil
  | cons c cs => exact hhead c cs (hl c (h2.subset (List.mem_cons_self c cs)))

theorem noTripleNl_suffix (l : List Char) (h : noTripleNl l = true) :
    ∀ l2, l2 <:+ l → tryNlCollapse l2 = none := by
  induction l with
  | nil =>
    intro l2 h2
    rw [List.suffix_nil.mp h2]
    rfl
  | cons c cs ih =>
    intro l2 h2
    have hh : (tryNlCollapse (c :: cs)).isNone = true ∧ noTripleNl cs = true := by
      simpa [noTripleNl, Bool.and_eq_true] using h
    rcases List.suffix_cons_iff.mp h2 with h3 | h3
    · rw [h3]
      exact Option.isNone_iff_eq_none.mp hh.1
    · exact ih hh.2 l2 h3

theorem substFuel_sp_id : ∀ (n : Nat) (l : List Char),
    noDoubleSpace l = true → substFuel trySpCollapse n l = l := by
  intro n
  induction n with
  | zero => intro l _; rfl
  | succ m ih =>
    intro l h
    cases l with
    | nil => rfl
    | cons c cs =>
      have htl : noDoubleSpace cs = true := by
        cases cs with
        | nil => rfl
        | cons b r =>
          simp only [noDoubleSpace, Bool.and_eq_true] at h
          exact h.2
      by_cases hc : c = ' '
      · subst hc
        have hb : cs.dropWhile (fun c2 => c2 == ' ') = cs := by
          cases cs with
          | nil => rfl
          | cons b r =>
            have hbs : (b == ' ') = false := by
              simp only [noDoubleSpace, Bool.and_eq_true] at h
              have := h.1
              simpa using this
            simp [List.dropWhile, hbs]
        simp [substFuel, trySpCollapse, hb, ih cs htl]
      · simp [substFuel, trySpCollapse, hc, ih cs htl]

/-- On text with no tag openers, no entity introducers, no whitespace
run holding three newlines and no double spaces, every substitution pass
of the normalizer is the identity. -/
theorem clean_html_content_plain (s : String)
    (h1 : ∀ c ∈ s.data, ¬ c = '<')
    (h2 : ∀ c ∈ s.data, ¬ c = '&')
    (h3 : noTripleNl s.data = true)
    (h4 : noDoubleSpace s.data = true) :
    clean_html_content s = pyStrip s := by
  simp only [clean_html_content, runSub]
  rw [substFuel_of_none tryScript _ _
        (headTrigNone _ '<' rfl (fun c cs h => by simp [tryScript, h]) _ h1)]
  rw [substFuel_of_none tryStyle _ _
        (headTrigNone _ '<' rfl (fun c cs h => by simp [tryStyle, h]) _ h1)]
  rw [substFuel_of_none tryH _ _
        (headTrigNone _ '<' rfl (fun c cs h => by simp [tryH, h]) _ h1)]
  rw [substFuel_of_none tryPOpen _ _
        (headTrigNone _ '<' rfl (fun c cs h => by simp [tryPOpen, h]) _ h1)]
  rw [substFuel_of_none tryPClose _ _
        (headTrigNone _ '<' rfl (fun c cs h => by simp [tryPClose, h]) _ h1)]
  rw [substFuel_of_none tryBr _ _
        (headTrigNone _ '<' rfl (fun c cs h => by simp [tryBr, h]) _ h1)]
  rw [substFuel_of_none tryAnyTag _ _
        (headTrigNone _ '<' rfl (fun c cs h => by simp [tryAnyTag, h]) _ h1)]
  rw [substFuel_of_none tryEntity _ _
        (headTrigNone _ '&' rfl (fun c cs h => by simp [tryEntity, h]) _ h2)]
  rw [substFuel_of_none tryNlCollapse _ _ (noTripleNl_suffix _ h3)]
  rw [substFuel_sp_id _ _ h4]
  rfl

/-- A paragraph list whose entries all resolve (`ParaResolves`)
processes without error to exactly the rendered fragments, in order. -/
theorem processParagraphs_resolved (g : List (String × JValue)) :
    ∀ (paras : List JValue) (yts : List (JValue × String)),
    List.Forall₂ (ParaResolves g) paras yts →
    processParagraphs g paras =
      .ok (yts.map fun yt => renderPara yt.1 yt.2) := by
  intro paras yts h
  induction h with
  | nil => rfl
  | cons hp _ ih =>
    obtain ⟨prfs, k, nfs, t0, hpe, hl1, hl2, hl3, hl4, hl5, hl6⟩ := hp
    subst hpe
    have hne : (pyStrip t0 == "") = false := by
      rw [hl4]
      simpa using hl5
    simp [processParagraphs, hl1, refGet, hl2, pyDictGet, hl3, Bind.bind,
          Except.bind, hne, ih, hl4, hl5, hl6]

theorem intercalate_nil_eq : "\n\n".intercalate [] = "" := rfl

/-- A `Post` entry whose chain does not resolve either lets the scan
continue (`none`) or exits with the empty string or an exception. -/
theorem processEntry_broken (g : List (String × JValue))
    (fs : List (String × JValue))
    (hv : entryChainResolves g (.obj fs) = false) (hp : isPost fs = true) :
    processEntry g fs = none ∨ processEntry g fs = some (.ok "") ∨
      processEntry g fs = some (.error ()) := by
  cases hc : (fs.lookup "content").getD (.obj []) with
  | obj cfs =>
    cases hr : cfs.lookup "__ref" with
    | none => simp [processEntry, hc, hr]
    | some crv =>
      cases crv with
      | str ck =>
        cases hck : g.lookup ck with
        | none => simp [processEntry, hc, hr, hck, refGet, pyDictGet]
        | some cnode =>
          cases cnode with
          | obj cnfs =>
            cases hb : (cnfs.lookup "bodyModel").getD (.obj []) with
            | obj bfs =>
              cases hbr : bfs.lookup "__ref" with
              | none => simp [processEntry, hc, hr, hck, refGet, pyDictGet, hb, hbr]
              | some brv =>
                cases brv with
                | str bk =>
                  cases hbk : g.lookup bk with
                  | none =>
                    simp [processEntry, hc, hr, hck, refGet, pyDictGet, hb, hbr,
                          hbk, processParagraphs, intercalate_nil_eq]
                  | some x =>
                    rw [entryChainResolves] at hv
                    simp [hp, hc, hr, hck, hb, hbr, hbk] at hv
                | arr xs => simp [processEntry, hc, hr, hck, refGet, pyDictGet, hb, hbr]
                | obj o => simp [processEntry, hc, hr, hck, refGet, pyDictGet, hb, hbr]
                | null =>
                  simp [processEntry, hc, hr, hck, refGet, pyDictGet, hb, hbr,
                        processParagraphs, intercalate_nil_eq]
                | bool b2 =>
                  simp [processEntry, hc, hr, hck, refGet, pyDictGet, hb, hbr,
                        processParagraphs, intercalate_nil_eq]
                | num n =>
                  simp [processEntry, hc, hr, hck, refGet, pyDictGet, hb, hbr,
                        processParagraphs, intercalate_nil_eq]
            | null => simp [processEntry, hc, hr, hck, refGet, pyDictGet, hb]
            | bool b2 => simp [processEntry, hc, hr, hck, refGet, pyDictGet, hb]
            | num n => simp [processEntry, hc, hr, hck, refGet, pyDictGet, hb]
            | str s2 => simp [processEntry, hc, hr, hck, refGet, pyDictGet, hb]
            | arr xs => simp [processEntry, hc, hr, hck, refGet, pyDictGet, hb]
          | null => simp [processEntry, hc, hr, hck, refGet, pyDictGet]
          | bool b2 => simp [processEntry, hc, hr, hck, refGet, pyDictGet]
          | num n => simp [processEntry, hc, hr, hck, refGet, pyDictGet]
          | str s2 => simp [processEntry, hc, hr, hck, refGet, pyDictGet]
          | arr xs => simp [processEntry, hc, hr, hck, refGet, pyDictGet]
      | arr xs => simp [processEntry, hc, hr, refGet]
      | obj o => simp [processEntry, hc, hr, refGet]
      | null => simp [processEntry, hc, hr, refGet, pyDictGet]
      | bool b2 => simp [processEntry, hc, hr, refGet, pyDictGet]
      | num n => simp [processEntry, hc, hr, refGet, pyDictGet]
  | null => simp [processEntry, hc]
  | bool b2 => simp [processEntry, hc]
  | num n => simp [processEntry, hc]
  | str s2 => simp [processEntry, hc]
  | arr xs => simp [processEntry, hc]

/-- Scanning entries none of which has a resolving chain ends in the
loop's final empty string or in an exception. -/
theorem apolloLoop_broken (g : List (String × JValue)) :
    ∀ l : List (String × JValue),
    (∀ kv ∈ l, entryChainResolves g kv.2 = false) →
    apolloLoop g l = .ok "" ∨ apolloLoop g l = .error () := by
  intro l
  induction l with
  | nil => intro _; exact .inl rfl
  | cons hd tl ih =>
    intro h
    obtain ⟨k, v⟩ := hd
    have hv : entryChainResolves g v = false := h (k, v) (List.mem_cons_self _ _)
    have ihtl := ih (fun kv hkv => h kv (List.mem_cons_of_mem _ hkv))
    cases v with
    | obj fs =>
      by_cases hp : isPost fs = true
      · rcases processEntry_broken g fs hv hp with h1 | h1 | h1 <;>
          simp [apolloLoop, hp, h1, ihtl]
      · simp only [Bool.not_eq_true] at hp
        simpa [apolloLoop, hp] using ihtl
    | null => simpa [apolloLoop] using ihtl
    | bool b2 => simpa [apolloLoop] using ihtl
    | num n => simpa [apolloLoop] using ihtl
    | str s2 => simpa [apolloLoop] using ihtl
    | arr xs => simpa [apolloLoop] using ihtl

/-! ### Claim theorems -/

/-- C1: the Coordinator tries the strategies in the fixed order
embedded-state, structured-data, tag-region, returning the first result
whose length strictly exceeds the strategy threshold (500 for the first
two); when the embedded-state result exceeds 500 characters it is
returned for every document — whatever the structured-data and tag
components hold, so the structured-data strategy's outcome is never
consulted; below both 500-thresholds the tag-region result is returned
as is. -/
theorem c1_strategy_priority (d : Document) :
    (500 < (extract_from_apollo_state d.apolloState).length →
        extract_article_content d = extract_from_apollo_state d.apolloState) ∧
    ((extract_from_apollo_state d.apolloState).length ≤ 500 →
      500 < (extract_from_jsonld d.jsonldBlocks).length →
        extract_article_content d = extract_from_jsonld d.jsonldBlocks) ∧
    ((extract_from_apollo_state d.apolloState).length ≤ 500 →
      (extract_from_jsonld d.jsonldBlocks).length ≤ 500 →
        extract_article_content d = extract_from_article_tags d.tagMatches) := by
  refine ⟨?_, ?_, ?_⟩
  · intro h
    have hne : ¬ extract_from_apollo_state d.apolloState = "" := by
      intro he
      rw [he] at h
      simp at h
    simp [extract_article_content, hne, h]
  · intro h1 h2
    have hn1 : ¬ (¬ extract_from_apollo_state d.apolloState = "" ∧
        500 < (extract_from_apollo_state d.apolloState).length) :=
      fun hx => absurd hx.2 (Nat.not_lt.mpr h1)
    have hne : ¬ extract_from_jsonld d.jsonldBlocks = "" := by
      intro he
      rw [he] at h2
      simp at h2
    simp [extract_article_content, hn1, hne, h2]
  · intro h1 h2
    have hn1 : ¬ (¬ extract_from_apollo_state d.apolloState = "" ∧
        500 < (extract_from_apollo_state d.apolloState).length) :=
      fun hx => absurd hx.2 (Nat.not_lt.mpr h1)
    have hn2 : ¬ (¬ extract_from_jsonld d.jsonldBlocks = "" ∧
        500 < (extract_from_jsonld d.jsonldBlocks).length) :=
      fun hx => absurd hx.2 (Nat.not_lt.mpr h2)
    simp [extract_article_content, hn1, hn2]

set_option maxRecDepth 100000 in
/-- C1 witness: on the spec's scenario (embedded state worth 600
characters, structured data worth 800) the Coordinator returns the
600-character embedded-state result. -/
theorem c1_strategy_priority_witness :
    extract_article_content exampleDoc = String.mk (List.replicate 600 'a') ∧
    (extract_from_jsonld exampleDoc.jsonldBlocks).length = 800 :=
  ⟨((c1_strategy_priority exampleDoc).1 (by decide)).trans (by decide), by decide⟩

/-- C2: when the graph's post node (here the first top-level entry) has
a fully resolving chain post → content → bodyModel → paragraphs whose N
paragraph references all resolve to nodes with non-empty stripped text,
the Embedded-State Graph Reader returns exactly the N rendered
fragments, in original order, joined with a blank line, each marked by
its `type` discriminator (`renderPara`: H3 → `\n### t\n`, H4 →
`\n#### t\n`, BQ → `\n> t\n`, PRE → fenced block, default bare text);
`ParaResolves` also covers the skipping of empty-text paragraphs by
requiring the listed fragments to be the non-empty ones. -/
theorem c2_apollo_fragments
    (k0 ck bk : String)
    (pfs cfs cnfs bfs bnfs : List (String × JValue))
    (gr : List (String × JValue)) (paras : List JValue)
    (yts : List (JValue × String))
    (hpost : pfs.lookup "__typename" = some (.str "Post"))
    (hcontent : pfs.lookup "content" = some (.obj cfs))
    (hcref : cfs.lookup "__ref" = some (.str ck))
    (hcnode : ((k0, JValue.obj pfs) :: gr).lookup ck = some (.obj cnfs))
    (hbody : cnfs.lookup "bodyModel" = some (.obj bfs))
    (hbref : bfs.lookup "__ref" = some (.str bk))
    (hbnode : ((k0, JValue.obj pfs) :: gr).lookup bk = some (.obj bnfs))
    (hparas : bnfs.lookup "paragraphs" = some (.arr paras))
    (hres : List.Forall₂ (ParaResolves ((k0, JValue.obj pfs) :: gr)) paras yts) :
    extract_from_apollo_state (some ((k0, JValue.obj pfs) :: gr)) =
      String.intercalate "\n\n" (yts.map fun yt => renderPara yt.1 yt.2) := by
  have hpp := processParagraphs_resolved ((k0, JValue.obj pfs) :: gr) paras yts hres
  simp [extract_from_apollo_state, apolloLoop, isPost, hpost, processEntry,
        hcontent, hcref, refGet, hcnode, pyDictGet, hbody, hbref, hbnode,
        hparas, hpp]

/-- C2 witness: a five-paragraph graph exercising every discriminator
produces exactly the five marked fragments in order, blank-line
joined. -/
theorem c2_apollo_fragments_witness :
    extract_from_apollo_state (some c2Graph) =
      String.intercalate "\n\n"
        ["\n### Intro\n", "\n#### Sub\n", "\n> Quote\n",
         "\n```\ncode()\n```\n", "Plain text."] := by
  have hres : List.Forall₂ (ParaResolves c2Graph)
      [robj "q1", robj "q2", robj "q3", robj "q4", robj "q5"]
      [(JValue.str "H3", "Intro"), (JValue.str "H4", "Sub"),
       (JValue.str "BQ", "Quote"), (JValue.str "PRE", "code()"),
       (JValue.str "P", "Plain text.")] := by
    refine .cons ⟨_, "q1", _, "Intro", rfl, rfl, rfl, rfl, rfl, by decide, rfl⟩ ?_
    refine .cons ⟨_, "q2", _, "Sub", rfl, rfl, rfl, rfl, rfl, by decide, rfl⟩ ?_
    refine .cons ⟨_, "q3", _, "Quote", rfl, rfl, rfl, rfl, rfl, by decide, rfl⟩ ?_
    refine .cons ⟨_, "q4", _, "code()", rfl, rfl, rfl, rfl, rfl, by decide, rfl⟩ ?_
    exact .cons ⟨_, "q5", _, "Plain text.", rfl, rfl, rfl, rfl, rfl, by decide, rfl⟩ .nil
  exact (c2_apollo_fragments "post" "c1" "b1" c2PostFields
      [("__ref", JValue.str "c1")] [("bodyModel", robj "b1")]
      [("__ref", JValue.str "b1")]
      [("paragraphs",
        JValue.arr [robj "q1", robj "q2", robj "q3", robj "q4", robj "q5"])]
      c2GraphRest
      [robj "q1", robj "q2", robj "q3", robj "q4", robj "q5"]
      [(JValue.str "H3", "Intro"), (JValue.str "H4", "Sub"),
       (JValue.str "BQ", "Quote"), (JValue.str "PRE", "code()"),
       (JValue.str "P", "Plain text.")]
      rfl rfl rfl rfl rfl rfl rfl rfl hres).trans (by decide)

/-- C3 counterexample: in `c3Graph` the second paragraph reference
points at the non-existent key `qMissing` (a broken paragraph hop), yet
the Embedded-State Graph Reader returns the non-empty partial fragment
list consisting of the first paragraph alone — not the empty string the
claim requires. -/
theorem c3_broken_chain_counterexample :
    c3Graph.lookup "qMissing" = none ∧
    extract_from_apollo_state (some c3Graph) = "Good paragraph text." ∧
    ¬ "Good paragraph text." = "" :=
  ⟨rfl, rfl, by decide⟩

/-- C3 amended: a chain broken at a dereferenced hop — the `content` or
`bodyModel` reference (at every post entry) — makes the Reader return
the empty string; but a paragraph reference pointing at a non-existent
key is merely skipped (its node defaults to `{}`, whose stripped text is
empty), so the remaining fragments are still returned and a partial
fragment list is possible at the paragraph level. -/
theorem c3_broken_chain_amended :
    (∀ (g : List (String × JValue)) (k : String) (rest : List JValue),
        g.lookup k = none →
        processParagraphs g (JValue.obj [("__ref", JValue.str k)] :: rest) =
          processParagraphs g rest) ∧
    (∀ g : List (String × JValue),
        (∀ kv ∈ g, entryChainResolves g kv.2 = false) →
        extract_from_apollo_state (some g) = "") := by
  constructor
  · intro g k rest hk
    simp [processParagraphs, refGet, hk, pyDictGet, Bind.bind, Except.bind, pyStrip,
          stripChars]
    cases processParagraphs g rest <;> rfl
  · intro g hg
    rcases apolloLoop_broken g g hg with h | h <;>
      simp [extract_from_apollo_state, h]

/-- C3 amended witness: in `c3Graph` the broken paragraph reference is
skipped (processing it equals processing the remaining list), and
`brokenHopGraph`, whose content reference points at a missing key,
extracts to the empty string. -/
theorem c3_broken_chain_amended_witness :
    processParagraphs c3Graph (JValue.obj [("__ref", JValue.str "qMissing")] :: []) =
      processParagraphs c3Graph [] ∧
    extract_from_apollo_state (some brokenHopGraph) = "" :=
  ⟨c3_broken_chain_amended.1 c3Graph "qMissing" [] rfl,
   c3_broken_chain_amended.2 brokenHopGraph (by decide)⟩

/-- C4 counterexample: the Markup Normalizer is not the identity (up to
trimming) on every tag-free plain text — it collapses space runs,
decodes entities and collapses newline runs even when no tag is present:
`"a  b"` (which contains neither `<` nor `>`) maps to `"a b"`, not to
its trim `"a  b"`. -/
theorem c4_clean_plain_counterexample :
    (∀ c ∈ "a  b".data, ¬ c = '<' ∧ ¬ c = '>') ∧
    clean_html_content "a  b" = "a b" ∧
    pyStrip "a  b" = "a  b" ∧
    ¬ clean_html_content "a  b" = pyStrip "a  b" ∧
    clean_html_content "x &amp; y" = "x & y" ∧
    clean_html_content "a\n\n\nb" = "a\n\nb" := by decide

/-- C4 amended: the Markup Normalizer returns exactly the input trimmed
for every plain-text input with no tag opener `<`, no entity introducer
`&`, no whitespace run containing three or more newlines, and no two
adjacent spaces (already-clean plain text). -/
theorem c4_clean_plain_amended (s : String)
    (h1 : ∀ c ∈ s.data, ¬ c = '<')
    (h2 : ∀ c ∈ s.data, ¬ c = '&')
    (h3 : noTripleNl s.data = true)
    (h4 : noDoubleSpace s.data = true) :
    clean_html_content s = pyStrip s :=
  clean_html_content_plain s h1 h2 h3 h4

/-- C4 amended witness: already-clean text with surrounding whitespace
is returned trimmed. -/
theorem c4_clean_plain_amended_witness :
    clean_html_content " hello\nworld " = pyStrip " hello\nworld " ∧
    pyStrip " hello\nworld " = "hello\nworld" :=
  ⟨c4_clean_plain_amended " hello\nworld "
      (by decide) (by decide) (by decide) (by decide),
   by decide⟩

/-- C5: normalizing `<h2>Title</h2><p>Body &amp; more</p>` yields
exactly `## Title\n\nBody & more` — the entity is decoded, the heading
becomes a `##` line, heading and paragraph are separated by one blank
line, and no tags remain. -/
theorem c5_clean_roundtrip :
    clean_html_content "<h2>Title</h2><p>Body &amp; more</p>" =
      "## Title\n\nBody & more" := by decide

/-- C6: in the Tag-Region Extractor a candidate region's cleaned text is
returned only when its length strictly exceeds 200 characters; a
region whose cleaned text does not exceed 200 is skipped and the search
continues with the remaining matches and patterns. -/
theorem c6_tag_threshold (m : String) (ms : List String)
    (rest : List (List String)) :
    ((clean_html_content m).length ≤ 200 →
        extract_from_article_tags ((m :: ms) :: rest) =
          extract_from_article_tags (ms :: rest)) ∧
    (200 < (clean_html_content m).length →
        extract_from_article_tags ((m :: ms) :: rest) = clean_html_content m) := by
  constructor
  · intro h
    simp [extract_from_article_tags, firstGoodMatch, Nat.not_lt.mpr h]
  · intro h
    simp [extract_from_article_tags, firstGoodMatch, h]

set_option maxRecDepth 100000 in
/-- C6 witness: a cleaned region of exactly 200 characters is rejected
(the extractor moves on and, with nothing left, returns empty) while one
of 201 characters is accepted and returned. -/
theorem c6_tag_threshold_witness :
    extract_from_article_tags [[m200]] = "" ∧
    extract_from_article_tags [[m201]] = String.mk (List.replicate 201 'a') :=
  ⟨((c6_tag_threshold m200 [] []).1 (by decide)).trans rfl,
   ((c6_tag_threshold m201 [] []).2 (by decide)).trans (by decide)⟩

/-- C7: the Markup Normalizer is pure and total — it is defined by
structurally terminating scans (so it returns a string on every input;
no exception value exists in its type) and is deterministic: equal
inputs give equal outputs. -/
theorem c7_clean_deterministic :
    ∀ s t : String, s = t → clean_html_content s = clean_html_content t :=
  fun _ _ h => congrArg clean_html_content h

/-- C7 witness. -/
theorem c7_clean_deterministic_witness :
    clean_html_content "<p>a</p>" = clean_html_content "<p>a</p>" :=
  c7_clean_deterministic "<p>a</p>" "<p>a</p>" rfl

/-- C8: every record produced by the orchestration loop has
`content_length` equal to the exact length of its content string, and
`extraction_successful` holds iff that length strictly exceeds 200. -/
theorem c8_record_invariant (docs : List Document) (r : ArticleRecord)
    (hr : r ∈ scrape_from_existing_data docs) :
    r.content_length = r.content.length ∧
    (r.extraction_successful = true ↔ 200 < r.content_length) := by
  rcases List.mem_map.mp hr with ⟨d, _, rfl⟩
  exact ⟨rfl, by simp [mkArticleRecord]⟩

/-- C8 witness: the record of a document with no extractable content has
`content_length` 0 and an unsuccessful flag, satisfying the
invariant. -/
theorem c8_record_invariant_witness :
    (mkArticleRecord (extract_article_content emptyDoc)).content_length =
      (mkArticleRecord (extract_article_content emptyDoc)).content.length ∧
    ((mkArticleRecord (extract_article_content emptyDoc)).extraction_successful = true ↔
      200 < (mkArticleRecord (extract_article_content emptyDoc)).content_length) :=
  c8_record_invariant [emptyDoc] _ (List.mem_singleton.mpr rfl)

/-- C9: the Embedded-State Graph Reader terminates on every object
graph — it is defined by structural recursion on the finite top-level
entry list and the finite paragraph list, following only the fixed
content → bodyModel → paragraphs field path, so every graph (including
`cycGraph`, whose reference pointers form cycles through the body and
post nodes, and `cycGraph2`, whose content reference points back at the
post) evaluates to a definite string. -/
theorem c9_apollo_terminates :
    (∀ g : List (String × JValue), ∃ r : String,
        extract_from_apollo_state (some g) = r) ∧
    extract_from_apollo_state (some cycGraph) = "Cycle-safe." ∧
    extract_from_apollo_state (some cycGraph2) = "" :=
  ⟨fun _ => ⟨_, rfl⟩, by decide, by decide⟩

/-- C10: a `Post` entry whose chain fails before any dereferenced hop
does not stop the scan — in `c10Graph` the first entry is a post whose
`content` dict has no `__ref` (its chain does not resolve), the second
entry is a post whose chain resolves, and the Reader returns the second
post's content. -/
theorem c10_post_scan_continues :
    isPost c10PostBrokenFields = true ∧
    entryChainResolves c10Graph (JValue.obj c10PostBrokenFields) = false ∧
    entryChainResolves c10Graph (JValue.obj c10PostGoodFields) = true ∧
    extract_from_apollo_state (some c10Graph) = "From the second post." := by
  decide
